import Mathlib

/-!
Shallow embedding of snapraid-runner.py (the single source file of the
repository) for checking the natural-language specification against the code.

The embedding models:
  - Python scalar values that can appear in the loaded YAML configuration
    (`Value`), together with the Python primitives the script applies to
    them: `str`, `int`, truthiness, `isinstance(_, int)`, `isinstance(_, bool)`,
    `str.rstrip`, `str.split(" ")[0]`, and the substring test `x in y`;
  - `tee_log` (the stream tee thread body);
  - `snapraid_command` (argument-vector construction and exit-code
    classification);
  - `load_config` (the defaultdict merge plus int/bool coercion, the
    percentage migration and the CLI overrides);
  - `finish` (the finalize routine: notification gating, notification
    error handling, exit code);
  - `run` and the `main` error handling around it, as a state machine over
    an abstract world that supplies the results of the filesystem checks
    and of each external command.

A run is modelled as a pair of (trace of observable events, outcome).
External commands are deterministic oracles in `World` (exit code, stdout
lines, stderr lines per step); `sys.exit` inside `finish` is modelled by
the `RunOut.exited` outcome (a SystemExit is not caught by the
`except Exception` handler in `main`, so it terminates the run); exceptions
that propagate out of `run` (CalledProcessError from `touch`/`diff`, the
TypeError from `int(plan)`) are `RunOut.raised` and are converted by the
`main` handler into one more `finish(False)` call.

String-typed configuration fields consumed by the run (executable path,
config path, apprise sendon) are modelled as `String`, and the two
bool-coerced flags the run branches on (`touch`, `scrub.enabled`) as
`Bool`, per the configuration-surface contract of the spec (section 6);
`deletethreshold` is `Int` (a Python bool surviving the isinstance(int)
check behaves exactly as its integer value 0/1 in the comparisons that
read it). The scrub `plan` and `older-than` values are kept as raw
`Value`s because the code stringifies them into the argument vector.
-/

/-- Python scalar values as they can appear in the loaded YAML config. -/
inductive Value where
  | vStr (s : String)
  | vInt (n : Int)
  | vBool (b : Bool)
  | vNull
  deriving DecidableEq

/-- Python whitespace predicate (`str.isspace` on the ASCII range),
used by `str.rstrip()` and `str.split()`. -/
def pyIsSpace (c : Char) : Bool :=
  c == ' ' || c == '\t' || c == '\n' || c == '\r' || c == '\x0b' || c == '\x0c'

/-- Python `str.rstrip()`: remove all trailing whitespace characters. -/
def pyRstrip (s : String) : String :=
  String.mk ((s.data.reverse.dropWhile pyIsSpace).reverse)

/-- Python `str(value)` for the scalar values of the model. -/
def pyStr : Value → String
  | .vStr s => s
  | .vInt n => toString n
  | .vBool b => if b then "True" else "False"
  | .vNull => "None"

/-- Python truthiness for the scalar values of the model. -/
def pyTruthy : Value → Bool
  | .vStr s => s != ""
  | .vInt n => n != 0
  | .vBool b => b
  | .vNull => false

/-- Python `isinstance(v, int)`. Note that Python `bool` is a subclass of
`int`, so a boolean value passes this check. -/
def isinstanceInt : Value → Bool
  | .vInt _ => true
  | .vBool _ => true
  | _ => false

/-- Python `isinstance(v, bool)`. -/
def isinstanceBool : Value → Bool
  | .vBool _ => true
  | _ => false

/-- Decimal digit run to a number, or `none` if empty or not all digits. -/
def digitsVal (cs : List Char) : Option Nat :=
  if cs ≠ [] && cs.all Char.isDigit then
    some (cs.foldl (fun a c => a * 10 + (c.toNat - 48)) 0)
  else none

/-- Python `int(s)` on a string: optional surrounding whitespace, optional
sign, then a nonempty digit run; anything else raises ValueError. -/
def parsePyInt (s : String) : Option Int :=
  let cs := ((s.data.dropWhile pyIsSpace).reverse.dropWhile pyIsSpace).reverse
  match cs with
  | '-' :: rest => (digitsVal rest).map (fun n => -(n : Int))
  | '+' :: rest => (digitsVal rest).map (fun n => (n : Int))
  | rest => (digitsVal rest).map (fun n => (n : Int))

/-- Python exception classes raised by `int(...)`. -/
inductive PyErr where
  | valueError
  | typeError
  deriving DecidableEq

/-- Python `int(v)`: ints and bools convert, strings parse or raise
ValueError, None raises TypeError (which `run` does not catch). -/
def pyInt : Value → Except PyErr Int
  | .vInt n => .ok n
  | .vBool b => .ok (if b then 1 else 0)
  | .vStr s =>
    match parsePyInt s with
    | some n => .ok n
    | none => .error .valueError
  | .vNull => .error .typeError

/-- Does `pyInt` raise TypeError on this value (uncaught by the scrub step)? -/
def planRaisesTypeError (v : Value) : Bool :=
  match pyInt v with
  | .error .typeError => true
  | _ => false

/-- Is `a` a prefix of `b` (character lists)? Helper for the Python
substring test. -/
def leadsWith : List Char → List Char → Bool
  | [], _ => true
  | _ :: _, [] => false
  | a :: as, b :: bs => a == b && leadsWith as bs

/-- Does `needle` occur as a contiguous run inside `hay` (character lists)? -/
def containsSub (needle : List Char) : List Char → Bool
  | [] => leadsWith needle []
  | b :: bs => leadsWith needle (b :: bs) || containsSub needle bs

/-- Python `needle in hay` on strings: substring test. -/
def strContains (needle hay : String) : Bool :=
  containsSub needle.data hay.data

/-! ## DiffAnalyzer: the diff classification in `run`

`diff_results = Counter(line.split(" ")[0] for line in diff_out)` followed
by `dict((x, diff_results[x]) for x in ["add", "remove", "move", "update"])`.
-/

/-- `line.split(" ")[0]`: the prefix of the line before the first space
character (the whole line when it has no space). -/
def lineCategory (l : String) : String :=
  String.mk (l.data.takeWhile (fun c => c != ' '))

/-- `Counter(line.split(" ")[0] for line in lines)[cat]`: how many lines
have first space-delimited token `cat`. -/
def countCat (lines : List String) (cat : String) : Nat :=
  (lines.filter (fun l => lineCategory l == cat)).length

/-- The fixed category list of the projection dict in `run`. -/
def diffCategories : List String := ["add", "remove", "move", "update"]

/-- `dict((x, Counter(...)[x]) for x in ["add","remove","move","update"])`:
the four-key dict built from the diff output, with explicit zeroes. -/
def diffResults (lines : List String) : List (String × Nat) :=
  diffCategories.map (fun c => (c, countCat lines c))

/-- The sum the no-op check computes:
`diff_results["remove"] + diff_results["add"] + diff_results["move"] +
diff_results["update"]`. -/
def diffTotal (lines : List String) : Nat :=
  countCat lines "remove" + countCat lines "add" +
    countCat lines "move" + countCat lines "update"

/-! ## StreamTee: `tee_log` -/

/-- Result of draining one stream with `tee_log`: the `(level, message)`
pairs passed to `logging.log`, the buffer contents, and whether the
stream handle was closed. -/
structure TeeResult where
  logLines : List (Nat × String)
  buffer : List String
  closed : Bool
  deriving DecidableEq

/-- The loop body of the tee thread: for every line, log `line.rstrip()`
at the given level and append the raw line to the buffer. -/
def teeLoop (lv : Nat) : List String → List (Nat × String) × List String
  | [] => ([], [])
  | l :: ls =>
    let r := teeLoop lv ls
    ((lv, pyRstrip l) :: r.1, l :: r.2)

/-- `tee_log`: drain the stream (given as its list of produced lines),
then close the underlying handle. -/
def tee_log (lines : List String) (lv : Nat) : TeeResult :=
  let r := teeLoop lv lines
  ⟨r.1, r.2, true⟩

/-! ## CommandRunner: `snapraid_command`, events and world -/

/-- Exceptions that can propagate through `run`. -/
inductive Exc where
  | calledProcessError (ret : Int) (cmd : String)
  | pyError (e : PyErr)
  deriving DecidableEq

/-- Observable events of a run: log calls (level, message), child-process
launches (command name, argument map, full argument vector), the
`logging.error(e)` calls on a caught CalledProcessError, entries into
`finish`, and attempts to send the apprise notification. -/
inductive Event where
  | log (level : Nat) (msg : String)
  | cmd (name : String) (args : List (String × Value)) (argv : List String)
  | errorLogged (e : Exc)
  | finishCalled (isSuccess : Bool)
  | notifyAttempted (isSuccess : Bool)
  deriving DecidableEq

/-- Outcome of `run`: terminated via `sys.exit(code)` inside `finish`
(SystemExit is not caught by `main`), or an exception propagated out. -/
inductive RunOut where
  | exited (code : Int)
  | raised (e : Exc)
  deriving DecidableEq

/-- The configuration snapshot `run` reads (section 3 of the spec; fields
already coerced by `load_config` as the configuration-surface contract
guarantees). -/
structure RunCfg where
  executable : String
  snapConf : String
  touch : Bool
  deletethreshold : Int
  scrubEnabled : Bool
  plan : Value
  olderThan : Value
  sendon : String
  deriving DecidableEq

/-- Result of one external command in the abstract world: exit code and
the decoded stdout/stderr lines. -/
structure CmdRun where
  ret : Int
  outLines : List String
  errLines : List String
  deriving DecidableEq

/-- The abstract world a run executes against: the two `os.path.isfile`
checks, the four possible external command executions (touch, diff, sync,
scrub) and whether the apprise notification attempt raises. -/
structure World where
  exeIsFile : Bool
  confIsFile : Bool
  touch : CmdRun
  diff : CmdRun
  sync : CmdRun
  scrub : CmdRun
  notifyRaises : Bool
  deriving DecidableEq

/-- The argument vector passed to `subprocess.Popen`:
`[executable, command] + ["--conf", configpath, "--quiet"]` followed by
`["--" + k, str(v)]` for each key/value pair of the argument map. -/
def buildArgv (cfg : RunCfg) (command : String) (args : List (String × Value)) :
    List String :=
  [cfg.executable, command] ++ ["--conf", cfg.snapConf, "--quiet"] ++
    (args.map (fun kv => ["--" ++ kv.1, pyStr kv.2])).flatten

/-- The log events produced by one `tee_log` thread over a stream. -/
def teeEvents (lv : Nat) (lines : List String) : List Event :=
  (tee_log lines lv).logLines.map (fun p => Event.log p.1 p.2)

/-- `snapraid_command`: emit the Popen event and the two tee streams
(stdout at level 15 = OUTPUT, stderr at level 25 = OUTERR), then classify
the exit code: return the stdout buffer if the code is 0 or allowlisted,
else raise CalledProcessError. -/
def snapraidCmd (cfg : RunCfg) (command : String) (args : List (String × Value))
    (allow : List Int) (c : CmdRun) : List Event × Except Exc (List String) :=
  (Event.cmd command args (buildArgv cfg command args) ::
      (teeEvents 15 c.outLines ++ teeEvents 25 c.errLines),
   if c.ret = 0 ∨ c.ret ∈ allow then .ok c.outLines
   else .error (.calledProcessError c.ret ("snapraid " ++ command)))

/-! ## Finalize: `finish` -/

/-- `("error", "success")[is_success]`. -/
def outcomeName (isSuccess : Bool) : String :=
  if isSuccess then "success" else "error"

/-- `finish(is_success)`: attempt the notification exactly when the
outcome name is a substring of the configured `sendon`; a raise inside the
attempt is caught and logged; then log the final line and `sys.exit` with
0 on success and 1 on failure (returned as the second component). -/
def finishRun (sendon : String) (notifyRaises : Bool) (isSuccess : Bool) :
    List Event × Int :=
  let notifyEvs :=
    if strContains (outcomeName isSuccess) sendon then
      if notifyRaises then
        [Event.notifyAttempted isSuccess,
         Event.log 40 "Failed to send notification"]
      else [Event.notifyAttempted isSuccess]
    else []
  let tailEvs :=
    if isSuccess then [Event.log 20 "Run finished successfully"]
    else [Event.log 40 "Run failed"]
  (Event.finishCalled isSuccess :: (notifyEvs ++ tailEvs),
   if isSuccess then 0 else 1)

/-! ## RunOrchestrator: `run`, decomposed into its source-order stages -/

def eq60 : String := String.mk (List.replicate 60 (Char.ofNat 61))

def star60 : String := String.mk (List.replicate 60 (Char.ofNat 42))

def thresholdMsg (t : Int) : String :=
  "Deleted files exceed delete threshold of " ++ toString t ++ ", aborting"

def exeMsg (exe : String) : String :=
  "The configured snapraid executable \"" ++ exe ++
    "\" does not exist or is not a file"

def confMsg (conf : String) : String :=
  "Snapraid config does not exist at " ++ conf

def diffMsg (a r m u : Nat) : String :=
  "Diff results: " ++ toString a ++ " added,  " ++ toString r ++
    " removed,  " ++ toString m ++ " moved,  " ++ toString u ++ " modified"

/-- Tail of `run`: `logging.info("All done"); finish(True)`. -/
def allDone (cfg : RunCfg) (w : World) : List Event × RunOut :=
  let f := finishRun cfg.sendon w.notifyRaises true
  (Event.log 20 "All done" :: f.1, .exited f.2)

/-- The scrub invocation with the computed argument map: a
CalledProcessError is caught, logged and routed to `finish(False)`. -/
def scrubCall (cfg : RunCfg) (w : World) (args : List (String × Value)) :
    List Event × RunOut :=
  let c := snapraidCmd cfg "scrub" args [] w.scrub
  match c.2 with
  | .error e =>
    let f := finishRun cfg.sendon w.notifyRaises false
    (Event.log 20 "Running scrub..." :: (c.1 ++ (Event.errorLogged e :: f.1)),
     .exited f.2)
  | .ok _ =>
    let d := allDone cfg w
    (Event.log 20 "Running scrub..." :: (c.1 ++ (Event.log 20 star60 :: d.1)),
     d.2)

/-- The scrub decision of `run`: when enabled, try `int(plan)`; ValueError
(a named plan token) omits `older-than`; success (a percentage) includes
it; TypeError (for example `plan: null`) propagates out of `run`. -/
def scrubStage (cfg : RunCfg) (w : World) : List Event × RunOut :=
  if cfg.scrubEnabled then
    match pyInt cfg.plan with
    | .error .typeError =>
      ([Event.log 20 "Running scrub..."], .raised (.pyError .typeError))
    | .error .valueError => scrubCall cfg w [("plan", cfg.plan)]
    | .ok _ => scrubCall cfg w [("plan", cfg.plan), ("older-than", cfg.olderThan)]
  else allDone cfg w

/-- After the threshold gate: the no-op check. A zero sum skips the sync
and logs the no-sync line; otherwise sync runs, a CalledProcessError being
caught, logged and routed to `finish(False)`. -/
def postGate (cfg : RunCfg) (w : World) (total : Nat) : List Event × RunOut :=
  if total = 0 then
    let s := scrubStage cfg w
    (Event.log 20 "No changes detected, no sync required" :: s.1, s.2)
  else
    let c := snapraidCmd cfg "sync" [] [] w.sync
    match c.2 with
    | .error e =>
      let f := finishRun cfg.sendon w.notifyRaises false
      (Event.log 20 "Running sync..." :: (c.1 ++ (Event.errorLogged e :: f.1)),
       .exited f.2)
    | .ok _ =>
      let s := scrubStage cfg w
      (Event.log 20 "Running sync..." :: (c.1 ++ (Event.log 20 star60 :: s.1)),
       s.2)

/-- After a successful diff: log the four counts, apply the threshold gate
(`deletethreshold >= 0 and remove > deletethreshold` aborts via
`finish(False)` after the two error lines), else continue. -/
def afterDiff (cfg : RunCfg) (w : World) (out : List String) :
    List Event × RunOut :=
  let msgEv := Event.log 20 (diffMsg (countCat out "add") (countCat out "remove")
    (countCat out "move") (countCat out "update"))
  if 0 ≤ cfg.deletethreshold ∧
      (countCat out "remove" : Int) > cfg.deletethreshold then
    let f := finishRun cfg.sendon w.notifyRaises false
    ([msgEv, Event.log 40 (thresholdMsg cfg.deletethreshold),
      Event.log 40 "Run again with --ignore-deletethreshold to sync anyways"]
      ++ f.1, .exited f.2)
  else
    let p := postGate cfg w (diffTotal out)
    (msgEv :: p.1, p.2)

/-- The diff step: exit code 2 is allowlisted; any other nonzero code
raises out of `run` (no local handler). -/
def diffStage (cfg : RunCfg) (w : World) : List Event × RunOut :=
  let c := snapraidCmd cfg "diff" [] [2] w.diff
  match c.2 with
  | .error e => (Event.log 20 "Running diff..." :: c.1, .raised e)
  | .ok out =>
    let n := afterDiff cfg w out
    (Event.log 20 "Running diff..." :: (c.1 ++ (Event.log 20 star60 :: n.1)),
     n.2)

/-- The optional touch step: when the `touch` flag is set, run it with no
local handler (a CalledProcessError raises out of `run`). -/
def touchStage (cfg : RunCfg) (w : World) : List Event × RunOut :=
  if cfg.touch then
    let c := snapraidCmd cfg "touch" [] [] w.touch
    match c.2 with
    | .error e => (Event.log 20 "Running touch..." :: c.1, .raised e)
    | .ok _ =>
      let d := diffStage cfg w
      (Event.log 20 "Running touch..." :: (c.1 ++ (Event.log 20 star60 :: d.1)),
       d.2)
  else diffStage cfg w

/-- `run()`: banner, the two `os.path.isfile` precondition checks (each
failing one logs and calls `finish(False)`), then the step chain. -/
def runModel (cfg : RunCfg) (w : World) : List Event × RunOut :=
  let pre := [Event.log 20 eq60, Event.log 20 "Run started", Event.log 20 eq60]
  if !w.exeIsFile then
    let f := finishRun cfg.sendon w.notifyRaises false
    (pre ++ (Event.log 40 (exeMsg cfg.executable) :: f.1), .exited f.2)
  else if !w.confIsFile then
    let f := finishRun cfg.sendon w.notifyRaises false
    (pre ++ (Event.log 40 (confMsg cfg.snapConf) :: f.1), .exited f.2)
  else
    let t := touchStage cfg w
    (pre ++ t.1, t.2)

/-- The run phase of `main()`: `try: run() except Exception:
logging.exception(...); finish(False)`. A SystemExit from a `finish`
inside `run` passes through the handler (it is not an `Exception`); any
exception propagating out of `run` is logged and routed to one final
`finish(False)`. The second component is the process exit code. -/
def runPhase (cfg : RunCfg) (w : World) : List Event × Int :=
  match runModel cfg w with
  | (evs, .exited c) => (evs, c)
  | (evs, .raised _) =>
    let f := finishRun cfg.sendon w.notifyRaises false
    (evs ++ (Event.log 40 "Run failed due to unexpected exception:" :: f.1),
     f.2)

/-- Setup outcomes of `main()` before the run: does the configuration file
exist, did `load_config` raise, did `setup_logger` raise. -/
structure Pre where
  confExists : Bool
  loadRaises : Bool
  setupRaises : Bool
  deriving DecidableEq

/-- `main()`: the three setup failure paths each `sys.exit(2)` before the
run begins; otherwise the run phase decides the exit code. -/
def mainModel (p : Pre) (cfg : RunCfg) (w : World) : List Event × Int :=
  if !p.confExists then ([], 2)
  else if p.loadRaises then ([], 2)
  else if p.setupRaises then ([], 2)
  else runPhase cfg w

/-! ## Config loading: `load_config` -/

/-- The merged config dict: the four fixed sections, each an association
list (later `setKey` entries shadow earlier ones; a missing key reads as
the defaultdict default `""`). -/
structure ConfigFile where
  snapraid : List (String × Value)
  logging : List (String × Value)
  apprise : List (String × Value)
  scrub : List (String × Value)
  deriving DecidableEq

/-- Read `config[section][key]` with the defaultdict default `""`. -/
def sectGet (s : List (String × Value)) (k : String) : Value :=
  match s.lookup k with
  | some v => v
  | none => .vStr ""

/-- Write `config[section][key] = v` (shadowing association-list update). -/
def setKey (s : List (String × Value)) (k : String) (v : Value) :
    List (String × Value) :=
  (k, v) :: s

/-- `if not isinstance(config[section][option], int): config[...] = 0`. -/
def coerceIntKey (s : List (String × Value)) (k : String) :
    List (String × Value) :=
  if isinstanceInt (sectGet s k) then s else setKey s k (.vInt 0)

/-- `if not isinstance(config[section][option], bool): config[...] = False`. -/
def coerceBoolKey (s : List (String × Value)) (k : String) :
    List (String × Value) :=
  if isinstanceBool (sectGet s k) then s else setKey s k (.vBool false)

/-- The CLI arguments `load_config` consults: `--no-scrub` (stores `False`
into `scrub`, default `None`) and `--ignore-deletethreshold`. -/
structure CliArgs where
  scrub : Option Bool
  ignoreDeletethreshold : Bool
  deriving DecidableEq

/-- `load_config(args)` after the YAML merge: coerce the three declared-int
options and the three declared-bool options, migrate `scrub.percentage`
into `scrub.plan` when truthy, then apply the two CLI overrides. -/
def load_config (cf : ConfigFile) (args : CliArgs) : ConfigFile :=
  let snap := coerceIntKey cf.snapraid "deletethreshold"
  let lg := coerceIntKey cf.logging "maxsize"
  let scr := coerceIntKey cf.scrub "older-than"
  let snap := coerceBoolKey snap "touch"
  let appr := coerceBoolKey cf.apprise "short"
  let scr := coerceBoolKey scr "enabled"
  let scr :=
    if pyTruthy (sectGet scr "percentage") then
      setKey scr "plan" (sectGet scr "percentage")
    else scr
  let scr :=
    match args.scrub with
    | some b => setKey scr "enabled" (.vBool b)
    | none => scr
  let snap :=
    if args.ignoreDeletethreshold then setKey snap "deletethreshold" (.vInt (-1))
    else snap
  ⟨snap, lg, appr, scr⟩

/-! ## Trace measurements -/

/-- Number of `finish` entries in a trace. -/
def finishCount (evs : List Event) : Nat :=
  List.countP (fun e => match e with | .finishCalled _ => true | _ => false) evs

/-- Did the trace launch a child process with this command name? -/
def invokesCmd (evs : List Event) (nm : String) : Bool :=
  evs.any (fun e => match e with | .cmd n _ _ => n == nm | _ => false)

/-- Number of INFO-level (20) log events with exactly this message. -/
def infoCount (evs : List Event) (m : String) : Nat :=
  List.countP (fun e => decide (e = Event.log 20 m)) evs

/-- The argument maps of all launches of this command, in trace order. -/
def cmdCalls (evs : List Event) (nm : String) : List (List (String × Value)) :=
  evs.filterMap (fun e => match e with
    | .cmd n a _ => if n == nm then some a else none
    | _ => none)

/-! ## Specification-side definitions used to state corrections

Each of these follows the words of a spec claim (not the code), to be
compared with the code-derived definition above. -/

/-- Spec wording of claim C5: the first whitespace-delimited token of a
line (leading whitespace skipped, token ends at any whitespace). -/
def wsFirstToken (l : String) : String :=
  String.mk ((l.data.dropWhile pyIsSpace).takeWhile (fun c => !pyIsSpace c))

/-- Counting by the spec wording of claim C5. -/
def countCatWs (lines : List String) (cat : String) : Nat :=
  (lines.filter (fun l => wsFirstToken l == cat)).length

/-- Spec wording of claim C9: strip only a trailing line terminator
(`\n`, `\r\n` or `\r`), not other whitespace. -/
def stripLineTerm (s : String) : String :=
  if s.data.getLast? = some '\n' then
    let t := s.data.dropLast
    if t.getLast? = some '\r' then String.mk t.dropLast else String.mk t
  else if s.data.getLast? = some '\r' then String.mk s.data.dropLast
  else s

/-- Plain reading of an integer value in claim C7 (Python booleans are not
integers in the ordinary sense the claim uses). -/
def isIntValue : Value → Bool
  | .vInt _ => true
  | _ => false

/-- Did the outcome propagate an exception (so that `finish` has not yet
been called on this path)? -/
def raisedB : RunOut → Bool
  | .raised _ => true
  | .exited _ => false

/-- Specification-level success of the run phase: both precondition files
exist, every attempted command exits 0 (2 also allowed for diff), the
threshold gate does not fire, and the scrub step neither raises TypeError
on the plan nor fails. Used to characterize the process exit code. -/
def runSucceeds (cfg : RunCfg) (w : World) : Prop :=
  w.exeIsFile = true ∧ w.confIsFile = true
  ∧ (cfg.touch = true → w.touch.ret = 0)
  ∧ (w.diff.ret = 0 ∨ w.diff.ret = 2)
  ∧ ¬ (0 ≤ cfg.deletethreshold ∧
        (countCat w.diff.outLines "remove" : Int) > cfg.deletethreshold)
  ∧ (diffTotal w.diff.outLines ≠ 0 → w.sync.ret = 0)
  ∧ (cfg.scrubEnabled = true →
      planRaisesTypeError cfg.plan = false ∧ w.scrub.ret = 0)

instance runSucceedsDecidable (cfg : RunCfg) (w : World) :
    Decidable (runSucceeds cfg w) := by
  unfold runSucceeds
  exact inferInstance

/-- Setup failure of `main()` before the run begins. -/
def setupFails (p : Pre) : Prop :=
  p.confExists = false ∨ p.loadRaises = true ∨ p.setupRaises = true

instance setupFailsDecidable (p : Pre) : Decidable (setupFails p) := by
  unfold setupFails
  exact inferInstance

/-- The child-process launch events of a trace. -/
def cmdEvents (evs : List Event) : List Event :=
  evs.filter (fun e => match e with | .cmd _ _ _ => true | _ => false)

/-! ## Concrete fixtures for counterexamples and witnesses -/

/-- A command execution that succeeded silently. -/
def okCmd : CmdRun := ⟨0, [], []⟩

def cfgC1 : RunCfg :=
  ⟨"snapraid", "snapraid.conf", false, 5, false, .vStr "", .vInt 0, ""⟩

def wC1 : World :=
  ⟨true, true, okCmd,
   ⟨2, ["remove a", "remove b", "remove c", "remove d", "remove e", "remove f"],
    []⟩,
   okCmd, okCmd, false⟩

def wC1eq : World :=
  ⟨true, true, okCmd,
   ⟨2, ["remove a", "remove b", "remove c", "remove d", "remove e"], []⟩,
   okCmd, okCmd, false⟩

def cfgC2 : RunCfg :=
  ⟨"snapraid", "snapraid.conf", false, 0, false, .vStr "", .vInt 0, ""⟩

def cfgC3 : RunCfg :=
  ⟨"snapraid", "snapraid.conf", false, -1, false, .vStr "", .vInt 0,
   "error,success"⟩

def wC3 : World :=
  ⟨true, true, okCmd, ⟨2, ["remove a"], []⟩, ⟨1, [], ["sync boom"]⟩, okCmd,
   true⟩

def preOk : Pre := ⟨true, false, false⟩

def preBad : Pre := ⟨false, false, false⟩

def wOk : World := ⟨true, true, okCmd, okCmd, okCmd, okCmd, false⟩

def cfgC6 : RunCfg :=
  ⟨"snapraid", "snapraid.conf", true, 5, true, .vStr "75", .vInt 10, ""⟩

def wC6 : World :=
  ⟨true, true, ⟨0, ["touched 1"], []⟩, ⟨0, ["equal y"], ["note z"]⟩, okCmd,
   okCmd, false⟩

def cfgC8 : RunCfg :=
  ⟨"snapraid", "snapraid.conf", false, -1, true, .vStr "75", .vInt 10, ""⟩

def cfgC8bad : RunCfg :=
  ⟨"snapraid", "snapraid.conf", false, -1, true, .vStr "bad", .vInt 10, ""⟩

def wC8 : World :=
  ⟨true, true, okCmd, ⟨2, ["add a"], []⟩, okCmd, okCmd, false⟩

def exDiffLines : List String :=
  ["add a", "remove b", "add c", "move d", "update e", "remove f"]

def cf7x : ConfigFile := ⟨[("deletethreshold", .vBool true)], [], [], []⟩

def cf7w : ConfigFile :=
  ⟨[("deletethreshold", .vStr "9"), ("touch", .vStr "yes")],
   [("maxsize", .vStr "big")], [("short", .vInt 1)],
   [("older-than", .vNull), ("enabled", .vStr "on")]⟩

def defaultCli : CliArgs := ⟨none, false⟩

/-! ## Helper lemmas on trace chunks -/

theorem teeEvents_nil (lv : Nat) : teeEvents lv [] = [] := rfl

theorem teeEvents_cons (lv : Nat) (l : String) (ls : List String) :
    teeEvents lv (l :: ls) = Event.log lv (pyRstrip l) :: teeEvents lv ls := by
  simp [teeEvents, tee_log, teeLoop]

@[simp]
theorem finishCount_teeEvents (lv : Nat) (lines : List String) :
    finishCount (teeEvents lv lines) = 0 := by
  induction lines with
  | nil => rfl
  | cons l ls ih =>
    rw [teeEvents_cons]
    simpa [finishCount] using ih

@[simp]
theorem invokesCmd_teeEvents (lv : Nat) (lines : List String) (nm : String) :
    invokesCmd (teeEvents lv lines) nm = false := by
  induction lines with
  | nil => rfl
  | cons l ls ih =>
    rw [teeEvents_cons]
    simpa [invokesCmd] using ih

@[simp]
theorem infoCount_teeEvents (lv : Nat) (lines : List String) (m : String)
    (h : lv ≠ 20) : infoCount (teeEvents lv lines) m = 0 := by
  induction lines with
  | nil => rfl
  | cons l ls ih =>
    rw [teeEvents_cons]
    simpa [infoCount, h] using ih

@[simp]
theorem cmdCalls_teeEvents (lv : Nat) (lines : List String) (nm : String) :
    cmdCalls (teeEvents lv lines) nm = [] := by
  induction lines with
  | nil => rfl
  | cons l ls ih =>
    rw [teeEvents_cons]
    simpa [cmdCalls] using ih

@[simp]
theorem log_notin_teeEvents (lv lv' : Nat) (m : String) (lines : List String)
    (h : lv' ≠ lv) : Event.log lv' m ∉ teeEvents lv lines := by
  induction lines with
  | nil => simp [teeEvents_nil]
  | cons l ls ih =>
    rw [teeEvents_cons]
    simp only [List.mem_cons]
    rintro (hc | hc)
    · exact h (by injection hc)
    · exact ih hc

@[simp]
theorem finishCount_finishRun (sd : String) (nr s : Bool) :
    finishCount (finishRun sd nr s).1 = 1 := by
  by_cases h1 : strContains (outcomeName s) sd <;> cases nr <;> cases s <;>
    simp [finishRun, finishCount, h1]

@[simp]
theorem invokesCmd_finishRun (sd : String) (nr s : Bool) (nm : String) :
    invokesCmd (finishRun sd nr s).1 nm = false := by
  by_cases h1 : strContains (outcomeName s) sd <;> cases nr <;> cases s <;>
    simp [finishRun, invokesCmd, h1]

@[simp]
theorem infoCount_finishRun (sd : String) (nr s : Bool) (m : String)
    (h : m ≠ "Run finished successfully") :
    infoCount (finishRun sd nr s).1 m = 0 := by
  have h' : ¬ "Run finished successfully" = m := fun hc => h hc.symm
  by_cases h1 : strContains (outcomeName s) sd <;> cases nr <;> cases s <;>
    simp [finishRun, infoCount, h1, h']

@[simp]
theorem cmdCalls_finishRun (sd : String) (nr s : Bool) (nm : String) :
    cmdCalls (finishRun sd nr s).1 nm = [] := by
  by_cases h1 : strContains (outcomeName s) sd <;> cases nr <;> cases s <;>
    simp [finishRun, cmdCalls, h1]

@[simp]
theorem log_notin_finishRun (sd : String) (nr s : Bool) (lv : Nat) (m : String)
    (h1 : m ≠ "Failed to send notification") (h2 : m ≠ "Run failed")
    (h3 : m ≠ "Run finished successfully") :
    Event.log lv m ∉ (finishRun sd nr s).1 := by
  by_cases hc : strContains (outcomeName s) sd <;> cases nr <;> cases s <;>
    simp [finishRun, hc] <;> tauto

/-! ## Structural simp lemmas for the trace measures -/

@[simp]
theorem finishCount_nil : finishCount [] = 0 := rfl

@[simp]
theorem finishCount_append (a b : List Event) :
    finishCount (a ++ b) = finishCount a + finishCount b := by
  simp [finishCount, List.countP_append]

@[simp]
theorem finishCount_cons_log (lv : Nat) (m : String) (l : List Event) :
    finishCount (Event.log lv m :: l) = finishCount l := by
  simp [finishCount, List.countP_cons]

@[simp]
theorem finishCount_cons_cmd (n : String) (a : List (String × Value))
    (v : List String) (l : List Event) :
    finishCount (Event.cmd n a v :: l) = finishCount l := by
  simp [finishCount, List.countP_cons]

@[simp]
theorem finishCount_cons_err (e : Exc) (l : List Event) :
    finishCount (Event.errorLogged e :: l) = finishCount l := by
  simp [finishCount, List.countP_cons]

@[simp]
theorem finishCount_cons_notify (b : Bool) (l : List Event) :
    finishCount (Event.notifyAttempted b :: l) = finishCount l := by
  simp [finishCount, List.countP_cons]

@[simp]
theorem finishCount_cons_finish (b : Bool) (l : List Event) :
    finishCount (Event.finishCalled b :: l) = finishCount l + 1 := by
  simp [finishCount, List.countP_cons]

@[simp]
theorem invokesCmd_nil (nm : String) : invokesCmd [] nm = false := rfl

@[simp]
theorem invokesCmd_append (a b : List Event) (nm : String) :
    invokesCmd (a ++ b) nm = (invokesCmd a nm || invokesCmd b nm) := by
  simp [invokesCmd]

@[simp]
theorem invokesCmd_cons_log (lv : Nat) (m : String) (l : List Event)
    (nm : String) : invokesCmd (Event.log lv m :: l) nm = invokesCmd l nm := by
  simp [invokesCmd]

@[simp]
theorem invokesCmd_cons_cmd (n : String) (a : List (String × Value))
    (v : List String) (l : List Event) (nm : String) :
    invokesCmd (Event.cmd n a v :: l) nm = (n == nm || invokesCmd l nm) := by
  simp [invokesCmd]

@[simp]
theorem invokesCmd_cons_err (e : Exc) (l : List Event) (nm : String) :
    invokesCmd (Event.errorLogged e :: l) nm = invokesCmd l nm := by
  simp [invokesCmd]

@[simp]
theorem invokesCmd_cons_notify (b : Bool) (l : List Event) (nm : String) :
    invokesCmd (Event.notifyAttempted b :: l) nm = invokesCmd l nm := by
  simp [invokesCmd]

@[simp]
theorem invokesCmd_cons_finish (b : Bool) (l : List Event) (nm : String) :
    invokesCmd (Event.finishCalled b :: l) nm = invokesCmd l nm := by
  simp [invokesCmd]

@[simp]
theorem infoCount_nil (m : String) : infoCount [] m = 0 := rfl

@[simp]
theorem infoCount_append (a b : List Event) (m : String) :
    infoCount (a ++ b) m = infoCount a m + infoCount b m := by
  simp [infoCount, List.countP_append]

@[simp]
theorem infoCount_cons_log (lv : Nat) (m' m : String) (l : List Event) :
    infoCount (Event.log lv m' :: l) m =
      infoCount l m + if lv = 20 ∧ m' = m then 1 else 0 := by
  by_cases h : lv = 20 ∧ m' = m
  · obtain ⟨h1, h2⟩ := h
    simp [infoCount, List.countP_cons, h1, h2]
  · have : ¬ (Event.log lv m' = Event.log 20 m) := by
      intro hx
      injection hx with hl hm
      exact h ⟨hl, hm⟩
    simp [infoCount, List.countP_cons, this, h]

@[simp]
theorem infoCount_cons_cmd (n : String) (a : List (String × Value))
    (v : List String) (l : List Event) (m : String) :
    infoCount (Event.cmd n a v :: l) m = infoCount l m := by
  simp [infoCount, List.countP_cons]

@[simp]
theorem infoCount_cons_err (e : Exc) (l : List Event) (m : String) :
    infoCount (Event.errorLogged e :: l) m = infoCount l m := by
  simp [infoCount, List.countP_cons]

@[simp]
theorem infoCount_cons_notify (b : Bool) (l : List Event) (m : String) :
    infoCount (Event.notifyAttempted b :: l) m = infoCount l m := by
  simp [infoCount, List.countP_cons]

@[simp]
theorem infoCount_cons_finish (b : Bool) (l : List Event) (m : String) :
    infoCount (Event.finishCalled b :: l) m = infoCount l m := by
  simp [infoCount, List.countP_cons]

@[simp]
theorem cmdCalls_nil (nm : String) : cmdCalls [] nm = [] := rfl

@[simp]
theorem cmdCalls_append (a b : List Event) (nm : String) :
    cmdCalls (a ++ b) nm = cmdCalls a nm ++ cmdCalls b nm := by
  simp [cmdCalls]

@[simp]
theorem cmdCalls_cons_log (lv : Nat) (m : String) (l : List Event)
    (nm : String) : cmdCalls (Event.log lv m :: l) nm = cmdCalls l nm := by
  simp [cmdCalls]

@[simp]
theorem cmdCalls_cons_cmd (n : String) (a : List (String × Value))
    (v : List String) (l : List Event) (nm : String) :
    cmdCalls (Event.cmd n a v :: l) nm =
      if n == nm then a :: cmdCalls l nm else cmdCalls l nm := by
  by_cases h : n = nm <;> simp [cmdCalls, List.filterMap_cons, h]

@[simp]
theorem cmdCalls_cons_err (e : Exc) (l : List Event) (nm : String) :
    cmdCalls (Event.errorLogged e :: l) nm = cmdCalls l nm := by
  simp [cmdCalls]

@[simp]
theorem cmdCalls_cons_notify (b : Bool) (l : List Event) (nm : String) :
    cmdCalls (Event.notifyAttempted b :: l) nm = cmdCalls l nm := by
  simp [cmdCalls]

@[simp]
theorem cmdCalls_cons_finish (b : Bool) (l : List Event) (nm : String) :
    cmdCalls (Event.finishCalled b :: l) nm = cmdCalls l nm := by
  simp [cmdCalls]

/-! ## Outcome characterization of the run stages -/

theorem finishRun_code (sd : String) (nr s : Bool) :
    (finishRun sd nr s).2 = if s then 0 else 1 := rfl

theorem allDone_snd (cfg : RunCfg) (w : World) :
    (allDone cfg w).2 = .exited 0 := rfl

theorem scrubCall_snd (cfg : RunCfg) (w : World) (args : List (String × Value)) :
    (scrubCall cfg w args).2 =
      if w.scrub.ret = 0 then .exited 0 else .exited 1 := by
  by_cases h : w.scrub.ret = 0 <;>
    simp [scrubCall, snapraidCmd, h, allDone_snd, finishRun]

theorem scrubStage_snd (cfg : RunCfg) (w : World) :
    (scrubStage cfg w).2 =
      if cfg.scrubEnabled then
        if planRaisesTypeError cfg.plan then .raised (.pyError .typeError)
        else if w.scrub.ret = 0 then .exited 0 else .exited 1
      else .exited 0 := by
  by_cases he : cfg.scrubEnabled
  · cases hp : pyInt cfg.plan with
    | error e =>
      cases e <;>
        simp [scrubStage, he, hp, planRaisesTypeError, scrubCall_snd]
    | ok n =>
      simp [scrubStage, he, hp, planRaisesTypeError, scrubCall_snd]
  · simp [scrubStage, he, allDone_snd]

theorem postGate_snd (cfg : RunCfg) (w : World) (total : Nat) :
    (postGate cfg w total).2 =
      if total = 0 then (scrubStage cfg w).2
      else if w.sync.ret = 0 then (scrubStage cfg w).2
      else .exited 1 := by
  by_cases ht : total = 0
  · simp [postGate, ht]
  · by_cases hs : w.sync.ret = 0 <;>
      simp [postGate, snapraidCmd, ht, hs, finishRun]

theorem afterDiff_snd (cfg : RunCfg) (w : World) (out : List String) :
    (afterDiff cfg w out).2 =
      if 0 ≤ cfg.deletethreshold ∧
          (countCat out "remove" : Int) > cfg.deletethreshold then .exited 1
      else (postGate cfg w (diffTotal out)).2 := by
  by_cases hg : 0 ≤ cfg.deletethreshold ∧
      (countCat out "remove" : Int) > cfg.deletethreshold <;>
    simp [afterDiff, hg, finishRun]

theorem diffStage_snd (cfg : RunCfg) (w : World) :
    (diffStage cfg w).2 =
      if w.diff.ret = 0 ∨ w.diff.ret = 2 then
        (afterDiff cfg w w.diff.outLines).2
      else .raised (.calledProcessError w.diff.ret "snapraid diff") := by
  by_cases hd : w.diff.ret = 0 ∨ w.diff.ret = 2 <;>
    simp [diffStage, snapraidCmd, hd]

theorem touchStage_snd (cfg : RunCfg) (w : World) :
    (touchStage cfg w).2 =
      if cfg.touch then
        if w.touch.ret = 0 then (diffStage cfg w).2
        else .raised (.calledProcessError w.touch.ret "snapraid touch")
      else (diffStage cfg w).2 := by
  by_cases htc : cfg.touch
  · by_cases htr : w.touch.ret = 0 <;>
      simp [touchStage, snapraidCmd, htc, htr]
  · simp [touchStage, htc]

theorem runModel_snd (cfg : RunCfg) (w : World) :
    (runModel cfg w).2 =
      if w.exeIsFile then
        if w.confIsFile then (touchStage cfg w).2 else .exited 1
      else .exited 1 := by
  by_cases he : w.exeIsFile
  · by_cases hc : w.confIsFile <;> simp [runModel, he, hc, finishRun]
  · simp [runModel, he, finishRun]

theorem runPhase_snd (cfg : RunCfg) (w : World) :
    (runPhase cfg w).2 =
      match (runModel cfg w).2 with
      | .exited c => c
      | .raised _ => 1 := by
  rcases hR : runModel cfg w with ⟨evs, out⟩
  cases out <;> simp [runPhase, hR, finishRun]

theorem runPhase_code (cfg : RunCfg) (w : World) :
    (runPhase cfg w).2 = if runSucceeds cfg w then 0 else 1 := by
  rw [runPhase_snd, runModel_snd, touchStage_snd, diffStage_snd, afterDiff_snd,
    postGate_snd, scrubStage_snd]
  by_cases he : w.exeIsFile
  case neg => simp [he, runSucceeds]
  case pos =>
  by_cases hc : w.confIsFile
  case neg => simp [he, hc, runSucceeds]
  case pos =>
  by_cases htc : cfg.touch
  case neg =>
    by_cases hd : w.diff.ret = 0 ∨ w.diff.ret = 2
    case neg => simp [he, hc, htc, hd, runSucceeds]
    case pos =>
    by_cases hg : 0 ≤ cfg.deletethreshold ∧
        (countCat w.diff.outLines "remove" : Int) > cfg.deletethreshold
    case pos => simp [he, hc, htc, hd, hg, runSucceeds]
    case neg =>
    by_cases ht0 : diffTotal w.diff.outLines = 0
    case pos =>
      by_cases hse : cfg.scrubEnabled
      case neg => simp [he, hc, htc, hd, hg, ht0, hse, runSucceeds]
      case pos =>
        by_cases hty : planRaisesTypeError cfg.plan
        case pos => simp [he, hc, htc, hd, hg, ht0, hse, hty, runSucceeds]
        case neg =>
          by_cases hsr : w.scrub.ret = 0 <;>
            simp [he, hc, htc, hd, hg, ht0, hse, hty, hsr, runSucceeds]
    case neg =>
      by_cases hsy : w.sync.ret = 0
      case neg => simp [he, hc, htc, hd, hg, ht0, hsy, runSucceeds]
      case pos =>
        by_cases hse : cfg.scrubEnabled
        case neg => simp [he, hc, htc, hd, hg, ht0, hsy, hse, runSucceeds]
        case pos =>
          by_cases hty : planRaisesTypeError cfg.plan
          case pos => simp [he, hc, htc, hd, hg, ht0, hsy, hse, hty, runSucceeds]
          case neg =>
            by_cases hsr : w.scrub.ret = 0 <;>
              simp [he, hc, htc, hd, hg, ht0, hsy, hse, hty, hsr, runSucceeds]
  case pos =>
    by_cases htr : w.touch.ret = 0
    case neg => simp [he, hc, htc, htr, runSucceeds]
    case pos =>
    by_cases hd : w.diff.ret = 0 ∨ w.diff.ret = 2
    case neg => simp [he, hc, htc, htr, hd, runSucceeds]
    case pos =>
    by_cases hg : 0 ≤ cfg.deletethreshold ∧
        (countCat w.diff.outLines "remove" : Int) > cfg.deletethreshold
    case pos => simp [he, hc, htc, htr, hd, hg, runSucceeds]
    case neg =>
    by_cases ht0 : diffTotal w.diff.outLines = 0
    case pos =>
      by_cases hse : cfg.scrubEnabled
      case neg => simp [he, hc, htc, htr, hd, hg, ht0, hse, runSucceeds]
      case pos =>
        by_cases hty : planRaisesTypeError cfg.plan
        case pos => simp [he, hc, htc, htr, hd, hg, ht0, hse, hty, runSucceeds]
        case neg =>
          by_cases hsr : w.scrub.ret = 0 <;>
            simp [he, hc, htc, htr, hd, hg, ht0, hse, hty, hsr, runSucceeds]
    case neg =>
      by_cases hsy : w.sync.ret = 0
      case neg => simp [he, hc, htc, htr, hd, hg, ht0, hsy, runSucceeds]
      case pos =>
        by_cases hse : cfg.scrubEnabled
        case neg => simp [he, hc, htc, htr, hd, hg, ht0, hsy, hse, runSucceeds]
        case pos =>
          by_cases hty : planRaisesTypeError cfg.plan
          case pos =>
            simp [he, hc, htc, htr, hd, hg, ht0, hsy, hse, hty, runSucceeds]
          case neg =>
            by_cases hsr : w.scrub.ret = 0 <;>
              simp [he, hc, htc, htr, hd, hg, ht0, hsy, hse, hty, hsr, runSucceeds]

/-! ## Finalize-count characterization (one `finish` per terminated stage) -/

theorem fc_allDone (cfg : RunCfg) (w : World) :
    finishCount (allDone cfg w).1 = 1 := by
  simp [allDone]

theorem fc_scrubCall (cfg : RunCfg) (w : World) (args : List (String × Value)) :
    finishCount (scrubCall cfg w args).1 = 1 := by
  by_cases h : w.scrub.ret = 0 <;>
    simp [scrubCall, snapraidCmd, h, fc_allDone]

theorem fc_scrubStage (cfg : RunCfg) (w : World) :
    finishCount (scrubStage cfg w).1 =
      if raisedB (scrubStage cfg w).2 then 0 else 1 := by
  rw [scrubStage_snd]
  by_cases he : cfg.scrubEnabled
  · cases hp : pyInt cfg.plan with
    | error e =>
      cases e <;>
        simp [scrubStage, he, hp, planRaisesTypeError, fc_scrubCall,
          scrubCall_snd, raisedB]
      by_cases hr : w.scrub.ret = 0 <;> simp [hr, raisedB]
    | ok n =>
      simp [scrubStage, he, hp, planRaisesTypeError, fc_scrubCall,
        scrubCall_snd]
      by_cases hr : w.scrub.ret = 0 <;> simp [hr, raisedB]
  · simp [scrubStage, he, fc_allDone, raisedB]

theorem fc_postGate (cfg : RunCfg) (w : World) (total : Nat) :
    finishCount (postGate cfg w total).1 =
      if raisedB (postGate cfg w total).2 then 0 else 1 := by
  rw [postGate_snd]
  by_cases ht : total = 0
  · simpa [postGate, ht] using fc_scrubStage cfg w
  · by_cases hs : w.sync.ret = 0
    · simpa [postGate, snapraidCmd, ht, hs] using fc_scrubStage cfg w
    · simp [postGate, snapraidCmd, ht, hs, raisedB]

theorem fc_afterDiff (cfg : RunCfg) (w : World) (out : List String) :
    finishCount (afterDiff cfg w out).1 =
      if raisedB (afterDiff cfg w out).2 then 0 else 1 := by
  rw [afterDiff_snd]
  by_cases hg : 0 ≤ cfg.deletethreshold ∧
      (countCat out "remove" : Int) > cfg.deletethreshold
  · simp [afterDiff, hg, raisedB]
  · simpa [afterDiff, hg] using fc_postGate cfg w (diffTotal out)

theorem fc_diffStage (cfg : RunCfg) (w : World) :
    finishCount (diffStage cfg w).1 =
      if raisedB (diffStage cfg w).2 then 0 else 1 := by
  rw [diffStage_snd]
  by_cases hd : w.diff.ret = 0 ∨ w.diff.ret = 2
  · simpa [diffStage, snapraidCmd, hd] using
      fc_afterDiff cfg w w.diff.outLines
  · simp [diffStage, snapraidCmd, hd, raisedB]

theorem fc_touchStage (cfg : RunCfg) (w : World) :
    finishCount (touchStage cfg w).1 =
      if raisedB (touchStage cfg w).2 then 0 else 1 := by
  rw [touchStage_snd]
  by_cases htc : cfg.touch
  · by_cases htr : w.touch.ret = 0
    · simpa [touchStage, snapraidCmd, htc, htr] using fc_diffStage cfg w
    · simp [touchStage, snapraidCmd, htc, htr, raisedB]
  · simpa [touchStage, htc] using fc_diffStage cfg w

theorem fc_runModel (cfg : RunCfg) (w : World) :
    finishCount (runModel cfg w).1 =
      if raisedB (runModel cfg w).2 then 0 else 1 := by
  rw [runModel_snd]
  by_cases he : w.exeIsFile
  · by_cases hc : w.confIsFile
    · simpa [runModel, he, hc] using fc_touchStage cfg w
    · simp [runModel, he, hc, raisedB]
  · simp [runModel, he, raisedB]

theorem fc_runPhase (cfg : RunCfg) (w : World) :
    finishCount (runPhase cfg w).1 = 1 := by
  have h := fc_runModel cfg w
  rcases hR : runModel cfg w with ⟨evs, out⟩
  rw [hR] at h
  cases out with
  | exited c =>
    simp only [raisedB] at h
    simpa [runPhase, hR] using h
  | raised e =>
    simp only [raisedB] at h
    simp [runPhase, hR, h]

/-! ## snapraidCmd projection lemmas -/

theorem snapraidCmd_fst (cfg : RunCfg) (command : String)
    (args : List (String × Value)) (allow : List Int) (c : CmdRun) :
    (snapraidCmd cfg command args allow c).1 =
      Event.cmd command args (buildArgv cfg command args) ::
        (teeEvents 15 c.outLines ++ teeEvents 25 c.errLines) := rfl

theorem snapraidCmd_ok (cfg : RunCfg) (command : String)
    (args : List (String × Value)) (allow : List Int) (c : CmdRun)
    (h : c.ret = 0 ∨ c.ret ∈ allow) :
    (snapraidCmd cfg command args allow c).2 = .ok c.outLines := by
  simp only [snapraidCmd]
  exact if_pos h

theorem snapraidCmd_err (cfg : RunCfg) (command : String)
    (args : List (String × Value)) (allow : List Int) (c : CmdRun)
    (h : ¬ (c.ret = 0 ∨ c.ret ∈ allow)) :
    (snapraidCmd cfg command args allow c).2 =
      .error (.calledProcessError c.ret ("snapraid " ++ command)) := by
  simp only [snapraidCmd]
  exact if_neg h

/-! ## Claim C9 -/

/-- Claim C9 counterexample: the claim says a logged line has only its
trailing line terminator stripped, but `tee_log` applies `rstrip()`, which
also strips the space before the terminator of "ab \n". -/
theorem C9_tee_counterexample :
    (tee_log ["ab \n"] 15).logLines = [(15, "ab")]
    ∧ stripLineTerm "ab \n" = "ab "
    ∧ ((15, "ab") : Nat × String) ≠ (15, "ab ") := by
  decide

/-- Claim C9 (amended): for every line produced by a consumed stream, the
tee logs that line at the given severity with all trailing whitespace
stripped (Python `rstrip()`), appends the raw unmodified line to the
supplied buffer, and closes the underlying stream handle at end of
stream. -/
theorem C9_tee_log (lines : List String) (lv : Nat) :
    (tee_log lines lv).logLines = lines.map (fun l => (lv, pyRstrip l))
    ∧ (tee_log lines lv).buffer = lines
    ∧ (tee_log lines lv).closed = true := by
  have h : teeLoop lv lines = (lines.map (fun l => (lv, pyRstrip l)), lines) := by
    induction lines with
    | nil => rfl
    | cons l ls ih => simp [teeLoop, ih]
  simp [tee_log, h]

/-! ## Claim C5 -/

/-- Claim C5 counterexample: the claim says classification is by the first
whitespace-delimited token, but the code splits on the space character
only; a tab-separated line whose whitespace-delimited first token is "add"
is not counted under "add". -/
theorem C5_diff_counts_counterexample :
    wsFirstToken "add\tfile1" = "add"
    ∧ countCatWs ["add\tfile1"] "add" = 1
    ∧ (diffResults ["add\tfile1"]).lookup "add" = some 0 := by
  decide

/-- Claim C5 (amended): for every list of captured diff lines, the
analyzer classifies each line by its first space-delimited token (the
prefix before the first space character; other whitespace does not
delimit), counts occurrences per category, ignores tokens outside
add/remove/move/update for the aggregate, and yields an explicit zero
entry for each absent category, so lookups of the four keys always
succeed; the documented example evaluates as specified. -/
theorem C5_diff_counts (lines : List String) :
    (diffResults lines).map Prod.fst = ["add", "remove", "move", "update"]
    ∧ (∀ c, c ∈ diffCategories →
        (diffResults lines).lookup c = some (countCat lines c))
    ∧ (∀ l, lineCategory l ∉ diffCategories →
        diffResults (l :: lines) = diffResults lines)
    ∧ diffResults exDiffLines =
        [("add", 2), ("remove", 2), ("move", 1), ("update", 1)] := by
  refine ⟨by simp [diffResults, diffCategories], ?_, ?_, by decide⟩
  · intro c hc
    simp only [diffCategories, List.mem_cons, List.not_mem_nil, or_false] at hc
    rcases hc with rfl | rfl | rfl | rfl <;>
      simp [diffResults, diffCategories, List.lookup]
  · intro l hl
    simp only [diffCategories, List.mem_cons, List.not_mem_nil, or_false,
      not_or] at hl
    obtain ⟨h1, h2, h3, h4⟩ := hl
    simp [diffResults, diffCategories, countCat, List.filter_cons, h1, h2,
      h3, h4]

/-- Claim C5 witness: the amended theorem applied to the documented
example input. -/
theorem C5_diff_counts_witness :
    (diffResults exDiffLines).lookup "remove" = some 2
    ∧ (diffResults exDiffLines).map Prod.fst =
        ["add", "remove", "move", "update"] := by
  have h := C5_diff_counts exDiffLines
  have h2 := h.2.1 "remove" (by decide)
  have hc : countCat exDiffLines "remove" = 2 := by decide
  rw [hc] at h2
  exact ⟨h2, h.1⟩

/-! ## Claim C2 -/

/-- Claim C2 counterexample: the claim puts the quiet flag and config path
before the positional command name, but the code passes the command name
first, then `--conf <path> --quiet`. -/
theorem C2_argv_counterexample :
    buildArgv cfgC2 "touch" [] =
      ["snapraid", "touch", "--conf", "snapraid.conf", "--quiet"]
    ∧ buildArgv cfgC2 "touch" [] ≠
      ["snapraid", "--conf", "snapraid.conf", "--quiet", "touch"]
    ∧ buildArgv cfgC2 "touch" [] ≠
      ["snapraid", "--quiet", "--conf", "snapraid.conf", "touch"] := by
  decide

/-- Claim C2 (amended): for every command invocation and argument map, the
child process is launched exactly once, with the argument vector
consisting of the executable, then the single positional command name,
then `--conf <configpath> --quiet`, then one long-option flag per
key/value pair of the map (flag name = key, value stringified). -/
theorem C2_argv_shape (cfg : RunCfg) (command : String)
    (args : List (String × Value)) (allow : List Int) (c : CmdRun) :
    cmdEvents (snapraidCmd cfg command args allow c).1 =
      [Event.cmd command args
        (cfg.executable :: command :: "--conf" :: cfg.snapConf :: "--quiet" ::
          (args.map (fun kv => ["--" ++ kv.1, pyStr kv.2])).flatten)] := by
  have htee : ∀ (lv : Nat) (lines : List String),
      cmdEvents (teeEvents lv lines) = [] := by
    intro lv lines
    induction lines with
    | nil => rfl
    | cons l ls ih =>
      rw [teeEvents_cons]
      simpa [cmdEvents] using ih
  simp [snapraidCmd_fst, cmdEvents, List.filter_append, buildArgv] at htee ⊢
  exact ⟨htee 15 c.outLines, htee 25 c.errLines⟩

/-! ## Claim C7 -/

theorem sectGet_setKey_same (s : List (String × Value)) (k : String)
    (v : Value) : sectGet (setKey s k v) k = v := by
  simp [sectGet, setKey, List.lookup]

theorem sectGet_setKey_ne (s : List (String × Value)) (k' k : String)
    (v : Value) (h : k ≠ k') : sectGet (setKey s k' v) k = sectGet s k := by
  have hb : (k == k') = false := beq_eq_false_iff_ne.mpr h
  simp [sectGet, setKey, List.lookup, hb]

theorem sectGet_coerceInt_same (s : List (String × Value)) (k : String) :
    sectGet (coerceIntKey s k) k =
      if isinstanceInt (sectGet s k) then sectGet s k else .vInt 0 := by
  by_cases h : isinstanceInt (sectGet s k) <;>
    simp [coerceIntKey, h, sectGet_setKey_same]

theorem sectGet_coerceInt_ne (s : List (String × Value)) (k' k : String)
    (h : k ≠ k') : sectGet (coerceIntKey s k') k = sectGet s k := by
  by_cases hc : isinstanceInt (sectGet s k') <;>
    simp [coerceIntKey, hc, sectGet_setKey_ne _ _ _ _ h]

theorem sectGet_coerceBool_same (s : List (String × Value)) (k : String) :
    sectGet (coerceBoolKey s k) k =
      if isinstanceBool (sectGet s k) then sectGet s k else .vBool false := by
  by_cases h : isinstanceBool (sectGet s k) <;>
    simp [coerceBoolKey, h, sectGet_setKey_same]

theorem sectGet_coerceBool_ne (s : List (String × Value)) (k' k : String)
    (h : k ≠ k') : sectGet (coerceBoolKey s k') k = sectGet s k := by
  by_cases hc : isinstanceBool (sectGet s k') <;>
    simp [coerceBoolKey, hc, sectGet_setKey_ne _ _ _ _ h]

/-- Claim C7 counterexample: the claim says a declared-int field holding a
non-integer value ends up 0, but a YAML boolean is not an integer value in
the plain sense and still survives `load_config`, because Python
`isinstance(True, int)` holds. -/
theorem C7_coercion_counterexample :
    isIntValue (sectGet cf7x.snapraid "deletethreshold") = false
    ∧ sectGet (load_config cf7x defaultCli).snapraid "deletethreshold" =
        .vBool true
    ∧ Value.vBool true ≠ Value.vInt 0 := by
  decide

/-- Claim C7 (amended): after `load_config` with no CLI overrides, each
declared-int field (deletethreshold, logging maxsize, scrub older-than)
holding a value that is neither an integer nor a boolean has effective
value 0 (a boolean passes the Python int check and is kept as is), and
each declared-bool field (touch, apprise short, scrub enabled) holding a
non-bool value has effective value false, before the core ever branches
on it. -/
theorem C7_type_coercion (cf : ConfigFile) :
    (isinstanceInt (sectGet cf.snapraid "deletethreshold") = false →
      sectGet (load_config cf defaultCli).snapraid "deletethreshold" =
        .vInt 0)
    ∧ (isinstanceInt (sectGet cf.logging "maxsize") = false →
      sectGet (load_config cf defaultCli).logging "maxsize" = .vInt 0)
    ∧ (isinstanceInt (sectGet cf.scrub "older-than") = false →
      sectGet (load_config cf defaultCli).scrub "older-than" = .vInt 0)
    ∧ (isinstanceBool (sectGet cf.snapraid "touch") = false →
      sectGet (load_config cf defaultCli).snapraid "touch" = .vBool false)
    ∧ (isinstanceBool (sectGet cf.apprise "short") = false →
      sectGet (load_config cf defaultCli).apprise "short" = .vBool false)
    ∧ (isinstanceBool (sectGet cf.scrub "enabled") = false →
      sectGet (load_config cf defaultCli).scrub "enabled" = .vBool false) := by
  simp only [load_config, defaultCli]
  simp only [show (false = true) = False by simp, if_false]
  refine ⟨?_, ?_, ?_, ?_, ?_, ?_⟩
  · intro h
    rw [sectGet_coerceBool_ne _ _ _ (by decide), sectGet_coerceInt_same]
    simp [h]
  · intro h
    rw [sectGet_coerceInt_same]
    simp [h]
  · intro h
    by_cases hp : pyTruthy (sectGet
        (coerceBoolKey (coerceIntKey cf.scrub "older-than") "enabled")
        "percentage") <;>
      simp only [hp, show (false = true) = False by simp,
        show (true = true) = True by simp, if_true, if_false]
    · rw [sectGet_setKey_ne _ _ _ _ (by decide),
        sectGet_coerceBool_ne _ _ _ (by decide), sectGet_coerceInt_same]
      simp [h]
    · rw [sectGet_coerceBool_ne _ _ _ (by decide), sectGet_coerceInt_same]
      simp [h]
  · intro h
    rw [sectGet_coerceBool_same, sectGet_coerceInt_ne _ _ _ (by decide)]
    simp [h]
  · intro h
    rw [sectGet_coerceBool_same]
    simp [h]
  · intro h
    by_cases hp : pyTruthy (sectGet
        (coerceBoolKey (coerceIntKey cf.scrub "older-than") "enabled")
        "percentage") <;>
      simp only [hp, show (false = true) = False by simp,
        show (true = true) = True by simp, if_true, if_false]
    · rw [sectGet_setKey_ne _ _ _ _ (by decide), sectGet_coerceBool_same,
        sectGet_coerceInt_ne _ _ _ (by decide)]
      simp [h]
    · rw [sectGet_coerceBool_same, sectGet_coerceInt_ne _ _ _ (by decide)]
      simp [h]

/-- Claim C7 witness: the amended theorem applied to a config file whose
six typed fields all hold values outside their declared types. -/
theorem C7_type_coercion_witness :
    sectGet (load_config cf7w defaultCli).snapraid "deletethreshold" = .vInt 0
    ∧ sectGet (load_config cf7w defaultCli).logging "maxsize" = .vInt 0
    ∧ sectGet (load_config cf7w defaultCli).scrub "older-than" = .vInt 0
    ∧ sectGet (load_config cf7w defaultCli).snapraid "touch" = .vBool false
    ∧ sectGet (load_config cf7w defaultCli).apprise "short" = .vBool false
    ∧ sectGet (load_config cf7w defaultCli).scrub "enabled" = .vBool false := by
  have h := C7_type_coercion cf7w
  exact ⟨h.1 (by decide), h.2.1 (by decide), h.2.2.1 (by decide),
    h.2.2.2.1 (by decide), h.2.2.2.2.1 (by decide), h.2.2.2.2.2 (by decide)⟩

/-! ## Claim C10 -/

/-- Claim C10 (confirmed): `finish` attempts a notification exactly when
the outcome name — "success" for a successful run, "error" for a failed
one — occurs as a substring of the configured apprise sendon value; with
the default empty sendon no notification is ever attempted, and a sendon
merely containing the outcome name (such as "successful") triggers one. -/
theorem C10_notification_gating (sendon : String) (nr s : Bool) :
    (Event.notifyAttempted s ∈ (finishRun sendon nr s).1 ↔
      strContains (outcomeName s) sendon = true)
    ∧ Event.notifyAttempted s ∉ (finishRun "" nr s).1
    ∧ outcomeName true = "success" ∧ outcomeName false = "error"
    ∧ strContains "success" "successful" = true
    ∧ strContains "success" "" = false
    ∧ strContains "error" "" = false := by
  have hemp : ∀ t : Bool, strContains (outcomeName t) "" = false := by
    intro t
    cases t <;> decide
  refine ⟨?_, ?_, rfl, rfl, by decide, by decide, by decide⟩
  · by_cases hc : strContains (outcomeName s) sendon <;> cases nr <;> cases s <;>
      simp [finishRun, hc]
  · cases nr <;> cases s <;> simp [finishRun, hemp]

/-- Claim C10 witness: notification attempted for a failed run with
sendon = "errors", not attempted with the default empty sendon. -/
theorem C10_notification_gating_witness :
    Event.notifyAttempted false ∈ (finishRun "errors" false false).1
    ∧ Event.notifyAttempted true ∉ (finishRun "" false true).1 := by
  have h1 := C10_notification_gating "errors" false false
  have h2 := C10_notification_gating "" false true
  exact ⟨h1.1.mpr (by decide), h2.2.1⟩

/-! ## Claim C4 -/

/-- Claim C4 (confirmed): the process exit code is 0 exactly when the
whole run succeeds (`runSucceeds`: preconditions hold, every attempted
command exits 0, with 2 also allowed for diff, the threshold gate does not
fire, and no unexpected exception is raised), 1 exactly on a failure or
abort during the run, and 2 exactly on a configuration or setup error
detected before the run begins. -/
theorem C4_exit_codes (p : Pre) (cfg : RunCfg) (w : World) :
    ((mainModel p cfg w).2 = 0 ↔ (¬ setupFails p ∧ runSucceeds cfg w))
    ∧ ((mainModel p cfg w).2 = 1 ↔ (¬ setupFails p ∧ ¬ runSucceeds cfg w))
    ∧ ((mainModel p cfg w).2 = 2 ↔ setupFails p) := by
  have hrp := runPhase_code cfg w
  by_cases h1 : p.confExists = true
  · by_cases h2 : p.loadRaises = true
    · simp [mainModel, setupFails, h1, h2]
    · by_cases h3 : p.setupRaises = true
      · simp [mainModel, setupFails, h1, h2, h3]
      · by_cases hs : runSucceeds cfg w <;>
          simp [mainModel, setupFails, h1, h2, h3, hs, hrp]
  · simp [mainModel, setupFails, h1]

/-- Claim C4 witness: exit code 0 for a clean run with clean setup, exit
code 2 when the configuration file is missing. -/
theorem C4_exit_codes_witness :
    (mainModel preOk cfgC2 wOk).2 = 0
    ∧ (mainModel preBad cfgC2 wOk).2 = 2 := by
  have h1 := C4_exit_codes preOk cfgC2 wOk
  have h2 := C4_exit_codes preBad cfgC2 wOk
  exact ⟨h1.1.mpr ⟨by decide, by decide⟩, h2.2.2.mpr (by decide)⟩

/-! ## Claim C3 -/

/-- Claim C3 (confirmed): once the run phase is entered, every path —
precondition failure, any command-step failure, threshold abort,
unexpected exception, or success — performs exactly one `finish` call; and
a failure inside the notification attempt within `finish` is caught and
logged and changes neither the `finish` exit code nor the process exit
code. -/
theorem C3_single_finalize (cfg : RunCfg) (w : World) (b s : Bool) :
    finishCount (runPhase cfg w).1 = 1
    ∧ (runPhase cfg w).2 = (runPhase cfg { w with notifyRaises := b }).2
    ∧ (finishRun cfg.sendon true s).2 = (finishRun cfg.sendon false s).2
    ∧ (Event.notifyAttempted s ∈ (finishRun cfg.sendon true s).1 →
        Event.log 40 "Failed to send notification" ∈
          (finishRun cfg.sendon true s).1) := by
  refine ⟨fc_runPhase cfg w, ?_, rfl, ?_⟩
  · have h2 : runSucceeds cfg { w with notifyRaises := b } ↔
        runSucceeds cfg w := by
      simp [runSucceeds]
    rw [runPhase_code, runPhase_code]
    by_cases hs : runSucceeds cfg w
    · rw [if_pos hs, if_pos (h2.mpr hs)]
    · rw [if_neg hs, if_neg (fun hh => hs (h2.mp hh))]
  · by_cases hc : strContains (outcomeName s) cfg.sendon <;> cases s <;>
      simp [finishRun, hc]

/-- Claim C3 witness: a failing run (sync exits 1) with a raising
notification attempt still finalizes exactly once, and the failure inside
the notification attempt is logged. -/
theorem C3_single_finalize_witness :
    finishCount (runPhase cfgC3 wC3).1 = 1
    ∧ Event.log 40 "Failed to send notification" ∈
        (finishRun cfgC3.sendon true false).1
    ∧ (runPhase cfgC3 wC3).2 = 1 := by
  have h := C3_single_finalize cfgC3 wC3 false false
  exact ⟨h.1, h.2.2.2 (by decide), by decide⟩

/-! ## Trace facts about the scrub stage (shared by several claims) -/

theorem scrubStage_trace (cfg : RunCfg) (w : World) :
    Event.log 40 "Run again with --ignore-deletethreshold to sync anyways" ∉
      (scrubStage cfg w).1
    ∧ invokesCmd (scrubStage cfg w).1 "sync" = false
    ∧ infoCount (scrubStage cfg w).1 "No changes detected, no sync required" = 0
    ∧ (cfg.scrubEnabled = true →
        Event.log 20 "Running scrub..." ∈ (scrubStage cfg w).1)
    ∧ (cfg.scrubEnabled = false →
        Event.log 20 "All done" ∈ (scrubStage cfg w).1)
    ∧ (cfg.scrubEnabled = true → pyInt cfg.plan = Except.error PyErr.valueError →
        cmdCalls (scrubStage cfg w).1 "scrub" = [[("plan", cfg.plan)]])
    ∧ (cfg.scrubEnabled = true → ∀ k, pyInt cfg.plan = Except.ok k →
        cmdCalls (scrubStage cfg w).1 "scrub" =
          [[("plan", cfg.plan), ("older-than", cfg.olderThan)]])
    ∧ ((cfg.scrubEnabled = false ∨ planRaisesTypeError cfg.plan = true) →
        cmdCalls (scrubStage cfg w).1 "scrub" = []) := by
  have hst : ¬ (star60 = "No changes detected, no sync required") := by decide
  by_cases hse : cfg.scrubEnabled = true
  · cases hp : pyInt cfg.plan with
    | error e =>
      cases e with
      | valueError =>
        by_cases hsr : w.scrub.ret = 0
        · have hk := snapraidCmd_ok cfg "scrub" [("plan", cfg.plan)] [] w.scrub
            (Or.inl hsr)
          simp [scrubStage, scrubCall, allDone, hse, hp, hk, snapraidCmd_fst,
            planRaisesTypeError, hst]
        · have hk := snapraidCmd_err cfg "scrub" [("plan", cfg.plan)] [] w.scrub
            (by simp [hsr])
          simp [scrubStage, scrubCall, hse, hp, hk, snapraidCmd_fst,
            planRaisesTypeError]
      | typeError =>
        simp [scrubStage, hse, hp, planRaisesTypeError]
    | ok n =>
      by_cases hsr : w.scrub.ret = 0
      · have hk := snapraidCmd_ok cfg "scrub"
          [("plan", cfg.plan), ("older-than", cfg.olderThan)] [] w.scrub
          (Or.inl hsr)
        simp [scrubStage, scrubCall, allDone, hse, hp, hk, snapraidCmd_fst,
          planRaisesTypeError, hst]
      · have hk := snapraidCmd_err cfg "scrub"
          [("plan", cfg.plan), ("older-than", cfg.olderThan)] [] w.scrub
          (by simp [hsr])
        simp [scrubStage, scrubCall, hse, hp, hk, snapraidCmd_fst,
          planRaisesTypeError]
  · simp [scrubStage, allDone, hse]

/-! ## Claim C1 -/

/-- Claim C1 (confirmed): in a run that reaches the threshold gate, if the
configured delete threshold is nonnegative and the diff remove count
strictly exceeds it, the run aborts as a failure (exit code 1) and sync is
never invoked; otherwise — remove count equal to the threshold, or any
negative threshold with any remove count — the gate does not abort (the
threshold abort line is never logged), the run proceeds past the gate to
the sync decision, and whenever the diff reports any change at all the
sync command is invoked. -/
theorem C1_threshold_gate (cfg : RunCfg) (w : World)
    (hexe : w.exeIsFile = true) (hconf : w.confIsFile = true)
    (htouch : cfg.touch = true → w.touch.ret = 0)
    (hdiff : w.diff.ret = 0 ∨ w.diff.ret = 2) :
    (0 ≤ cfg.deletethreshold →
      (countCat w.diff.outLines "remove" : Int) > cfg.deletethreshold →
      (runModel cfg w).2 = .exited 1
      ∧ invokesCmd (runModel cfg w).1 "sync" = false)
    ∧ (¬ (0 ≤ cfg.deletethreshold ∧
          (countCat w.diff.outLines "remove" : Int) > cfg.deletethreshold) →
      Event.log 40 "Run again with --ignore-deletethreshold to sync anyways" ∉
        (runModel cfg w).1
      ∧ (Event.log 20 "No changes detected, no sync required" ∈
          (runModel cfg w).1
          ∨ invokesCmd (runModel cfg w).1 "sync" = true)
      ∧ (diffTotal w.diff.outLines ≠ 0 →
          invokesCmd (runModel cfg w).1 "sync" = true)) := by
  have hdOk : (snapraidCmd cfg "diff" [] [2] w.diff).2 =
      Except.ok w.diff.outLines := by
    rcases hdiff with h | h
    · exact snapraidCmd_ok _ _ _ _ _ (Or.inl h)
    · exact snapraidCmd_ok _ _ _ _ _ (Or.inr (by simp [h]))
  have hsc := scrubStage_trace cfg w
  constructor
  · intro h1 h2
    have hg : 0 ≤ cfg.deletethreshold ∧
        (countCat w.diff.outLines "remove" : Int) > cfg.deletethreshold :=
      ⟨h1, h2⟩
    constructor
    · rw [runModel_snd, touchStage_snd, diffStage_snd, afterDiff_snd]
      by_cases htc : cfg.touch = true
      · simp [hexe, hconf, htc, htouch htc, hdiff, hg]
      · simp [hexe, hconf, htc, hdiff, hg]
    · by_cases htc : cfg.touch = true
      · have htOk := snapraidCmd_ok cfg "touch" [] [] w.touch
          (Or.inl (htouch htc))
        simp [runModel, touchStage, diffStage, afterDiff, hexe, hconf, htc,
          htOk, hdOk, hg, snapraidCmd_fst]
      · simp [runModel, touchStage, diffStage, afterDiff, hexe, hconf, htc,
          hdOk, hg, snapraidCmd_fst]
  · intro hg
    by_cases ht0 : diffTotal w.diff.outLines = 0
    · by_cases htc : cfg.touch = true
      · have htOk := snapraidCmd_ok cfg "touch" [] [] w.touch
          (Or.inl (htouch htc))
        simp [runModel, touchStage, diffStage, afterDiff, postGate, hexe,
          hconf, htc, htOk, hdOk, hg, ht0, snapraidCmd_fst, hsc.1, hsc.2.1]
      · simp [runModel, touchStage, diffStage, afterDiff, postGate, hexe,
          hconf, htc, hdOk, hg, ht0, snapraidCmd_fst, hsc.1, hsc.2.1]
    · by_cases hsy : w.sync.ret = 0
      · have hkOk := snapraidCmd_ok cfg "sync" [] [] w.sync (Or.inl hsy)
        by_cases htc : cfg.touch = true
        · have htOk := snapraidCmd_ok cfg "touch" [] [] w.touch
            (Or.inl (htouch htc))
          simp [runModel, touchStage, diffStage, afterDiff, postGate, hexe,
            hconf, htc, htOk, hdOk, hkOk, hg, ht0, snapraidCmd_fst, hsc.1,
            hsc.2.1]
        · simp [runModel, touchStage, diffStage, afterDiff, postGate, hexe,
            hconf, htc, hdOk, hkOk, hg, ht0, snapraidCmd_fst, hsc.1,
            hsc.2.1]
      · have hkErr := snapraidCmd_err cfg "sync" [] [] w.sync (by simp [hsy])
        by_cases htc : cfg.touch = true
        · have htOk := snapraidCmd_ok cfg "touch" [] [] w.touch
            (Or.inl (htouch htc))
          simp [runModel, touchStage, diffStage, afterDiff, postGate, hexe,
            hconf, htc, htOk, hdOk, hkErr, hg, ht0, snapraidCmd_fst]
        · simp [runModel, touchStage, diffStage, afterDiff, postGate, hexe,
            hconf, htc, hdOk, hkErr, hg, ht0, snapraidCmd_fst]

/-- Claim C1 witness: with threshold 5, a diff with six removals aborts
with exit code 1 before sync; a diff with exactly five removals does not
log the threshold abort and does invoke sync. -/
theorem C1_threshold_gate_witness :
    ((runModel cfgC1 wC1).2 = .exited 1
      ∧ invokesCmd (runModel cfgC1 wC1).1 "sync" = false)
    ∧ Event.log 40 "Run again with --ignore-deletethreshold to sync anyways" ∉
        (runModel cfgC1 wC1eq).1
    ∧ invokesCmd (runModel cfgC1 wC1eq).1 "sync" = true := by
  have h1 := C1_threshold_gate cfgC1 wC1 rfl rfl (by decide) (Or.inr rfl)
  have h2 := C1_threshold_gate cfgC1 wC1eq rfl rfl (by decide) (Or.inr rfl)
  exact ⟨h1.1 (by decide) (by decide), (h2.2 (by decide)).1,
    (h2.2 (by decide)).2.2 (by decide)⟩

/-! ## Claim C6 -/

/-- Claim C6 (confirmed): in a run whose diff yields zero in all four
categories, the sync command is never invoked, the "no sync required" line
is logged at INFO level exactly once, and the run proceeds directly to the
scrub decision (the scrub banner when scrub is enabled, the closing "All
done" when it is not). -/
theorem C6_noop_skips_sync (cfg : RunCfg) (w : World)
    (hexe : w.exeIsFile = true) (hconf : w.confIsFile = true)
    (htouch : cfg.touch = true → w.touch.ret = 0)
    (hdiff : w.diff.ret = 0 ∨ w.diff.ret = 2)
    (h0a : countCat w.diff.outLines "add" = 0)
    (h0r : countCat w.diff.outLines "remove" = 0)
    (h0m : countCat w.diff.outLines "move" = 0)
    (h0u : countCat w.diff.outLines "update" = 0) :
    invokesCmd (runModel cfg w).1 "sync" = false
    ∧ infoCount (runModel cfg w).1 "No changes detected, no sync required" = 1
    ∧ (cfg.scrubEnabled = true →
        Event.log 20 "Running scrub..." ∈ (runModel cfg w).1)
    ∧ (cfg.scrubEnabled = false →
        Event.log 20 "All done" ∈ (runModel cfg w).1) := by
  have hdOk : (snapraidCmd cfg "diff" [] [2] w.diff).2 =
      Except.ok w.diff.outLines := by
    rcases hdiff with h | h
    · exact snapraidCmd_ok _ _ _ _ _ (Or.inl h)
    · exact snapraidCmd_ok _ _ _ _ _ (Or.inr (by simp [h]))
  have hsc := scrubStage_trace cfg w
  have htot : diffTotal w.diff.outLines = 0 := by
    simp [diffTotal, h0a, h0r, h0m, h0u]
  have hg : ¬ (0 ≤ cfg.deletethreshold ∧
      (countCat w.diff.outLines "remove" : Int) > cfg.deletethreshold) := by
    rw [h0r]
    rintro ⟨hx1, hx2⟩
    omega
  have hdm : ¬ (diffMsg 0 0 0 0 = "No changes detected, no sync required") := by
    decide
  have hg2 : ¬ (0 ≤ cfg.deletethreshold ∧ cfg.deletethreshold < 0) := by omega
  have heq : ¬ (eq60 = "No changes detected, no sync required") := by decide
  have hst : ¬ (star60 = "No changes detected, no sync required") := by decide
  by_cases htc : cfg.touch = true
  · have htOk := snapraidCmd_ok cfg "touch" [] [] w.touch (Or.inl (htouch htc))
    refine ⟨?_, ?_, fun hse => ?_, fun hse => ?_⟩
    · simp [runModel, touchStage, diffStage, afterDiff, postGate, hexe, hconf,
        htc, htOk, hdOk, hg, htot, snapraidCmd_fst, hsc.2.1]
    · simp [runModel, touchStage, diffStage, afterDiff, postGate, hexe, hconf,
        htc, htOk, hdOk, hg, hg2, htot, h0a, h0r, h0m, h0u, hdm,
        snapraidCmd_fst, heq, hst, hsc.2.2.1]
    · simp [runModel, touchStage, diffStage, afterDiff, postGate, hexe, hconf,
        htc, htOk, hdOk, hg, htot, snapraidCmd_fst, hsc.2.2.2.1 hse]
    · simp [runModel, touchStage, diffStage, afterDiff, postGate, hexe, hconf,
        htc, htOk, hdOk, hg, htot, snapraidCmd_fst, hsc.2.2.2.2.1 hse]
  · refine ⟨?_, ?_, fun hse => ?_, fun hse => ?_⟩
    · simp [runModel, touchStage, diffStage, afterDiff, postGate, hexe, hconf,
        htc, hdOk, hg, htot, snapraidCmd_fst, hsc.2.1]
    · simp [runModel, touchStage, diffStage, afterDiff, postGate, hexe, hconf,
        htc, hdOk, hg, hg2, htot, h0a, h0r, h0m, h0u, hdm, snapraidCmd_fst,
        heq, hst, hsc.2.2.1]
    · simp [runModel, touchStage, diffStage, afterDiff, postGate, hexe, hconf,
        htc, hdOk, hg, htot, snapraidCmd_fst, hsc.2.2.2.1 hse]
    · simp [runModel, touchStage, diffStage, afterDiff, postGate, hexe, hconf,
        htc, hdOk, hg, htot, snapraidCmd_fst, hsc.2.2.2.2.1 hse]

/-- Claim C6 witness: a run with touch and scrub enabled whose diff output
contains only an unclassified line skips sync, logs the no-sync line once
and reaches the scrub decision. -/
theorem C6_noop_skips_sync_witness :
    invokesCmd (runModel cfgC6 wC6).1 "sync" = false
    ∧ infoCount (runModel cfgC6 wC6).1 "No changes detected, no sync required"
        = 1
    ∧ Event.log 20 "Running scrub..." ∈ (runModel cfgC6 wC6).1 := by
  have h := C6_noop_skips_sync cfgC6 wC6 rfl rfl (by decide) (Or.inl rfl)
    (by decide) (by decide) (by decide) (by decide)
  exact ⟨h.1, h.2.1, h.2.2.1 rfl⟩

/-! ## Claim C8 -/

/-- Claim C8 (confirmed): in a run with scrub enabled that reaches the
scrub step, the scrub command is invoked exactly once, its argument map
includes older-than alongside plan exactly when the configured plan value
converts as a Python integer, and a plan value raising ValueError (a named
plan token) yields an argument map without older-than. -/
theorem C8_scrub_older_than (cfg : RunCfg) (w : World)
    (hexe : w.exeIsFile = true) (hconf : w.confIsFile = true)
    (htouch : cfg.touch = true → w.touch.ret = 0)
    (hdiff : w.diff.ret = 0 ∨ w.diff.ret = 2)
    (hg : ¬ (0 ≤ cfg.deletethreshold ∧
        (countCat w.diff.outLines "remove" : Int) > cfg.deletethreshold))
    (hse : cfg.scrubEnabled = true)
    (hsync : diffTotal w.diff.outLines ≠ 0 → w.sync.ret = 0) :
    (∀ k, pyInt cfg.plan = Except.ok k →
      cmdCalls (runModel cfg w).1 "scrub" =
        [[("plan", cfg.plan), ("older-than", cfg.olderThan)]])
    ∧ (pyInt cfg.plan = Except.error PyErr.valueError →
      cmdCalls (runModel cfg w).1 "scrub" = [[("plan", cfg.plan)]])
    ∧ (∀ args, args ∈ cmdCalls (runModel cfg w).1 "scrub" →
        ((args.lookup "older-than").isSome = true ↔
          ∃ k, pyInt cfg.plan = Except.ok k)) := by
  have hdOk : (snapraidCmd cfg "diff" [] [2] w.diff).2 =
      Except.ok w.diff.outLines := by
    rcases hdiff with h | h
    · exact snapraidCmd_ok _ _ _ _ _ (Or.inl h)
    · exact snapraidCmd_ok _ _ _ _ _ (Or.inr (by simp [h]))
  have hsc := scrubStage_trace cfg w
  have hlift : cmdCalls (runModel cfg w).1 "scrub" =
      cmdCalls (scrubStage cfg w).1 "scrub" := by
    by_cases ht0 : diffTotal w.diff.outLines = 0
    · by_cases htc : cfg.touch = true
      · have htOk := snapraidCmd_ok cfg "touch" [] [] w.touch
          (Or.inl (htouch htc))
        simp [runModel, touchStage, diffStage, afterDiff, postGate, hexe,
          hconf, htc, htOk, hdOk, hg, ht0, snapraidCmd_fst]
      · simp [runModel, touchStage, diffStage, afterDiff, postGate, hexe,
          hconf, htc, hdOk, hg, ht0, snapraidCmd_fst]
    · have hsyOk := snapraidCmd_ok cfg "sync" [] [] w.sync
        (Or.inl (hsync ht0))
      by_cases htc : cfg.touch = true
      · have htOk := snapraidCmd_ok cfg "touch" [] [] w.touch
          (Or.inl (htouch htc))
        simp [runModel, touchStage, diffStage, afterDiff, postGate, hexe,
          hconf, htc, htOk, hdOk, hsyOk, hg, ht0, snapraidCmd_fst]
      · simp [runModel, touchStage, diffStage, afterDiff, postGate, hexe,
          hconf, htc, hdOk, hsyOk, hg, ht0, snapraidCmd_fst]
  refine ⟨?_, ?_, ?_⟩
  · intro k hk
    rw [hlift]
    exact hsc.2.2.2.2.2.2.1 hse k hk
  · intro hk
    rw [hlift]
    exact hsc.2.2.2.2.2.1 hse hk
  · intro args hargs
    rw [hlift] at hargs
    cases hp : pyInt cfg.plan with
    | ok n =>
      rw [hsc.2.2.2.2.2.2.1 hse n hp] at hargs
      simp only [List.mem_singleton] at hargs
      subst hargs
      refine ⟨fun _ => ⟨n, rfl⟩, fun _ => ?_⟩
      simp [List.lookup]
    | error e =>
      cases e with
      | valueError =>
        rw [hsc.2.2.2.2.2.1 hse hp] at hargs
        simp only [List.mem_singleton] at hargs
        subst hargs
        simp [List.lookup, hp]
      | typeError =>
        rw [hsc.2.2.2.2.2.2.2
          (Or.inr (by simp [planRaisesTypeError, hp]))] at hargs
        simp at hargs

/-- Claim C8 witness: plan "75" yields a scrub argument map with
older-than; plan "bad" yields one without it. -/
theorem C8_scrub_older_than_witness :
    cmdCalls (runModel cfgC8 wC8).1 "scrub" =
      [[("plan", Value.vStr "75"), ("older-than", Value.vInt 10)]]
    ∧ cmdCalls (runModel cfgC8bad wC8).1 "scrub" =
      [[("plan", Value.vStr "bad")]] := by
  have h1 := C8_scrub_older_than cfgC8 wC8 rfl rfl (by decide) (Or.inr rfl)
    (by decide) rfl (by decide)
  have h2 := C8_scrub_older_than cfgC8bad wC8 rfl rfl (by decide) (Or.inr rfl)
    (by decide) rfl (by decide)
  exact ⟨h1.1 75 rfl, h2.2.1 rfl⟩
